import Mathlib

/-!
Verification of the server-list query filter in
`src/djchat/server/views.py` (`ServerListViewSet.list`).

The handler reads five optional query parameters (`category`, `qty`,
`by_user`, `by_serverid`, `with_num_members`), applies an authentication
gate, then a fixed sequence of collection refinements, and returns the
surviving records together with the `with_num_members` flag that is put
in the serializer context.

The embedding below models the Django queryset as an ordered list of
`Server` records, the request principal as a `User`, and each raised
exception as an error value of `ListError`.  The pipeline is translated
step by step from the source, keeping Python semantics where they
matter:

* `request.query_params.get(k)` yields `Option String` (absent = `none`);
* `by_user = params.get("by_user") == "true"` and
  `with_num_members = params.get("with_num_members") == "True"` are
  string comparisons on the raw parameter;
* the gate `if by_user or by_serverid and not request.user.is_authenticated`
  parses, by Python operator precedence, as
  `by_user or (by_serverid and (not is_authenticated))`, and an
  `Option String` is truthy exactly when it is a non-empty string;
* `int(s)` strips surrounding whitespace, accepts one optional sign and
  a non-empty run of decimal digits, and raises `ValueError` otherwise;
* `queryset[:k]` takes a prefix of at most `k` records when `k ≥ 0` and
  raises (Django querysets reject negative slicing) when `k < 0`; a
  successful slice marks the queryset as sliced, and every later
  `.filter(...)` call on a sliced queryset raises
  `TypeError("Cannot filter a query once a slice has been taken.")`,
  which `except ValueError` does not catch — the model threads this
  sliced flag and applies the restriction to both `.filter` call sites
  (the `member` filter and the `id` filter); the `annotate` step carries
  no such restriction in the model, and no claim combines `qty` with
  `with_num_members`;
* inside the `try` block, `int(by_serverid)` is evaluated before
  `.filter(id=...)` is called, so an unparseable id still reports
  "Invalid server id" even on a sliced queryset;
* `ValidationError("Server not found")` raised inside the `try` block is
  not a `ValueError`, so it propagates past `except ValueError`.
-/

deriving instance DecidableEq for Except

/-- Record of the external `Server` entity as the handler sees it:
an integer `id`, the name of its category (the source filters on
`category__name`), the ids of its member users (the source filters on
`member=user_id` and counts with `Count("member")`), and the
`num_members` value attached by the `annotate` step when requested. -/
structure Server where
  id : Int
  category_name : String
  members : List Int
  num_members : Option Nat := none
deriving DecidableEq

/-- Requesting principal: `request.user` with `is_authenticated` and `id`. -/
structure User where
  is_authenticated : Bool
  id : Int
deriving DecidableEq

/-- Raw query parameters of one request; `none` means the parameter is
absent from the query string (`request.query_params.get` returns `None`). -/
structure QueryParams where
  category : Option String := none
  qty : Option String := none
  by_user : Option String := none
  by_serverid : Option String := none
  with_num_members : Option String := none
deriving DecidableEq

/-- Exceptions the handler can raise, one constructor per raise site.
`invalidServerId` and `serverNotFound` are both DRF `ValidationError`s in
the source, distinguished by message ("Invalid server id" / "Server not
found"); `qtyValueError` is the uncaught `ValueError` from `int(qty)`;
`negativeIndexAssertion` is the error Django raises for a negative
queryset slice; `filterAfterSliceTypeError` is the uncaught
`TypeError("Cannot filter a query once a slice has been taken.")` that a
`.filter(...)` call raises on a sliced queryset. -/
inductive ListError where
  | authenticationFailed
  | invalidServerId
  | serverNotFound
  | qtyValueError
  | negativeIndexAssertion
  | filterAfterSliceTypeError
deriving DecidableEq

/-- Value of a successful request: the surviving records (in order) and
the `with_num_members` flag passed to the serializer context. -/
structure ListResult where
  servers : List Server
  num_members : Bool
deriving DecidableEq

/-- Truthiness of an `Option String` in Python: `None` and the empty
string are falsy, every other string is truthy. -/
def py_truthy : Option String → Bool
  | none => false
  | some s => !(s == "")

/-- Python whitespace characters stripped by `int()` (the common ones). -/
def py_space (c : Char) : Bool :=
  c == ' ' || c == '\t' || c == '\n' || c == '\r'

/-- Strip leading and trailing whitespace from a character list. -/
def strip_ws (cs : List Char) : List Char :=
  ((cs.dropWhile py_space).reverse.dropWhile py_space).reverse

/-- Decimal value of a digit run. -/
def decimal_value (cs : List Char) : Nat :=
  cs.foldl (fun acc c => acc * 10 + (c.toNat - '0'.toNat)) 0

/-- Core of `int()` on an already-stripped character list: one optional
sign followed by a non-empty run of decimal digits. -/
def py_int_core : List Char → Option Int
  | [] => none
  | '+' :: rest =>
      if !rest.isEmpty && rest.all Char.isDigit then
        some (decimal_value rest) else none
  | '-' :: rest =>
      if !rest.isEmpty && rest.all Char.isDigit then
        some (-(decimal_value rest : Int)) else none
  | cs =>
      if cs.all Char.isDigit then some (decimal_value cs) else none

/-- Python `int(s)` on a string: `some n` on success, `none` when the
call would raise `ValueError`. -/
def py_int (s : String) : Option Int :=
  py_int_core (strip_ws s.toList)

/-- Condition of the auth gate, exactly as the source line
`if by_user or by_serverid and not request.user.is_authenticated:`
evaluates under Python precedence. -/
def auth_gate_condition (p : QueryParams) (user : User) : Bool :=
  (p.by_user == some "true") || (py_truthy p.by_serverid && !user.is_authenticated)

/-- Step `if category is not None: queryset = queryset.filter(category__name=category)`. -/
def apply_category (category : Option String) (qs : List Server) : List Server :=
  match category with
  | none => qs
  | some c => qs.filter (fun s => s.category_name == c)

/-- Step `if qty is not None: queryset = queryset[: int(qty)]`.
`int(qty)` raises `ValueError` on a non-numeric string; a negative value
makes the queryset slice raise (negative indexing is unsupported).  A
successful slice returns the prefix together with `true` for the sliced
mark that Django keeps on the queryset; without `qty` the collection is
unsliced (`false`). -/
def apply_qty (qty : Option String) (qs : List Server) :
    Except ListError (List Server × Bool) :=
  match qty with
  | none => .ok (qs, false)
  | some q =>
      match py_int q with
      | none => .error .qtyValueError
      | some k =>
          if k < 0 then .error .negativeIndexAssertion
          else .ok (qs.take k.toNat, true)

/-- Step `if by_user: queryset = queryset.filter(member=user_id)`.
Calling `.filter` on a sliced queryset raises the uncaught
no-filter-after-slice `TypeError` (this call site is unreachable in the
program, since `by_user` true always fires the gate, but the restriction
is modelled faithfully anyway). -/
def apply_by_user (by_user : Bool) (uid : Int) (qs : List Server) (sliced : Bool) :
    Except ListError (List Server) :=
  if by_user then
    if sliced then .error .filterAfterSliceTypeError
    else .ok (qs.filter (fun s => s.members.contains uid))
  else .ok qs

/-- Step `if with_num_members: queryset = queryset.annotate(num_members=Count("member"))`. -/
def apply_num_members (flag : Bool) (qs : List Server) : List Server :=
  if flag then qs.map (fun s => { s with num_members := some s.members.length }) else qs

/-- Step for `by_serverid`: inside the `try` block the argument
`int(by_serverid)` is evaluated first, and a `ValueError` there is caught
and re-raised as `ValidationError("Invalid server id")`; the `.filter`
call itself then raises the uncaught no-filter-after-slice `TypeError`
when the queryset was sliced by the `qty` step; otherwise the collection
is narrowed with `filter(id=...)` and, when nothing survives,
`ValidationError("Server not found")` is raised (it is not a `ValueError`,
so the surrounding `except` does not catch it). -/
def apply_by_serverid (sid : Option String) (qs : List Server) (sliced : Bool) :
    Except ListError (List Server) :=
  match sid with
  | none => .ok qs
  | some s =>
      match py_int s with
      | none => .error .invalidServerId
      | some n =>
          if sliced then .error .filterAfterSliceTypeError
          else
            let filtered := qs.filter (fun r => r.id == n)
            if filtered.isEmpty then .error .serverNotFound else .ok filtered

/-- Embedding of `ServerListViewSet.list`: parameter decoding, auth gate,
then the five refinement steps in source order, ending with the
serializer input (records plus the `with_num_members` context flag). -/
def ServerListViewSet.list (queryset : List Server) (p : QueryParams) (user : User) :
    Except ListError ListResult :=
  let by_user := p.by_user == some "true"
  let with_num_members := p.with_num_members == some "True"
  if auth_gate_condition p user then
    .error .authenticationFailed
  else
    match apply_qty p.qty (apply_category p.category queryset) with
    | .error e => .error e
    | .ok (after_qty, sliced) =>
        match apply_by_user by_user user.id after_qty sliced with
        | .error e => .error e
        | .ok after_user =>
            match apply_by_serverid p.by_serverid
                (apply_num_members with_num_members after_user) sliced with
            | .error e => .error e
            | .ok final => .ok { servers := final, num_members := with_num_members }

/-- Five concrete servers used by the concrete theorems. -/
def sampleServers : List Server :=
  [ { id := 1, category_name := "Gaming", members := [1, 2] },
    { id := 2, category_name := "Music", members := [1] },
    { id := 3, category_name := "Gaming", members := [2, 3, 4] },
    { id := 4, category_name := "Tech", members := [] },
    { id := 5, category_name := "Gaming", members := [1] } ]

/-- Anonymous principal (Django's `AnonymousUser` has no real id). -/
def anonymousUser : User := { is_authenticated := false, id := 0 }

/-- Authenticated principal with user id 1. -/
def authedUser : User := { is_authenticated := true, id := 1 }

/-- Unfolding of the handler when the auth gate fires. -/
theorem list_gate_true (qs : List Server) (p : QueryParams) (user : User)
    (hg : auth_gate_condition p user = true) :
    ServerListViewSet.list qs p user = .error .authenticationFailed := by
  unfold ServerListViewSet.list
  simp [hg]

/-- Unfolding of the handler when the auth gate passes. -/
theorem list_gate_false (qs : List Server) (p : QueryParams) (user : User)
    (hg : auth_gate_condition p user = false) :
    ServerListViewSet.list qs p user =
      match apply_qty p.qty (apply_category p.category qs) with
      | .error e => .error e
      | .ok (after_qty, sliced) =>
          match apply_by_user (p.by_user == some "true") user.id after_qty sliced with
          | .error e => .error e
          | .ok after_user =>
              match apply_by_serverid p.by_serverid
                  (apply_num_members (p.with_num_members == some "True") after_user) sliced with
              | .error e => .error e
              | .ok final =>
                  .ok { servers := final, num_members := p.with_num_members == some "True" } := by
  unfold ServerListViewSet.list
  simp [hg]

/-- Errors of the by_user step are never the authentication error. -/
theorem apply_by_user_error_cases (by_user : Bool) (uid : Int) (qs : List Server)
    (sliced : Bool) (e : ListError) (h : apply_by_user by_user uid qs sliced = .error e) :
    e = .filterAfterSliceTypeError := by
  unfold apply_by_user at h
  cases by_user with
  | false => simp at h
  | true =>
      cases sliced with
      | false => simp at h
      | true => simp at h; exact h.symm

/-- Errors of the qty step are never the authentication error. -/
theorem apply_qty_error_cases (qty : Option String) (qs : List Server) (e : ListError)
    (h : apply_qty qty qs = .error e) :
    e = .qtyValueError ∨ e = .negativeIndexAssertion := by
  cases qty with
  | none => simp [apply_qty] at h
  | some q =>
      simp only [apply_qty] at h
      cases hp : py_int q with
      | none => simp only [hp] at h; cases h; left; rfl
      | some k =>
          simp only [hp] at h
          by_cases hk : k < 0

          · rw [if_pos hk] at h; cases h; right; rfl
          · rw [if_neg hk] at h; cases h

/-- Errors of the by_serverid step are never the authentication error. -/
theorem apply_by_serverid_error_cases (sid : Option String) (qs : List Server)
    (sliced : Bool) (e : ListError) (h : apply_by_serverid sid qs sliced = .error e) :
    e = .invalidServerId ∨ e = .serverNotFound ∨ e = .filterAfterSliceTypeError := by
  cases sid with
  | none => simp [apply_by_serverid] at h
  | some s =>
      simp only [apply_by_serverid] at h
      cases hp : py_int s with
      | none => simp only [hp] at h; cases h; left; rfl
      | some n =>
          simp only [hp] at h
          cases sliced with
          | true => simp at h; right; right; exact h.symm
          | false =>
              simp only [Bool.false_eq_true, if_false] at h
              by_cases hf : (qs.filter (fun r => r.id == n)).isEmpty

              · simp only [hf, if_pos] at h; cases h; right; left; rfl
              · simp only [hf] at h; cases h

/-- With pairwise distinct ids, filtering on the id of a member of the
collection yields exactly that member. -/
theorem filter_id_eq_singleton (qs : List Server) (n : Int) (r : Server)
    (hnd : (qs.map Server.id).Nodup) (hr : r ∈ qs) (hid : r.id = n) :
    qs.filter (fun s => s.id == n) = [r] := by
  induction qs with
  | nil => cases hr
  | cons a tl ih =>
      rw [List.map_cons, List.nodup_cons] at hnd
      rcases List.mem_cons.mp hr with hra | hrtl
      · subst hra
        have htl : tl.filter (fun s => s.id == n) = [] := by
          rw [List.filter_eq_nil_iff]
          intro s hs hps
          have hsn : s.id = n := by simpa using hps
          exact hnd.1 (hid ▸ hsn ▸ List.mem_map_of_mem Server.id hs)
        rw [List.filter_cons_of_pos (by simpa using hid), htl]
      · have han : (a.id == n) = false := by
          simp only [beq_eq_false_iff_ne, ne_eq]
          intro ha
          exact hnd.1 (ha ▸ hid ▸ List.mem_map_of_mem Server.id hrtl)
        simp only [List.filter_cons, han, Bool.false_eq_true, if_false]
        exact ih hnd.2 hrtl

example : py_int "5" = some 5 := by decide
example : py_int "" = none := by decide
example : py_int "abc" = none := by decide
example : py_int "-1" = some (-1) := by decide
example : py_int " 999 " = some 999 := by decide
example :
    ServerListViewSet.list sampleServers { category := some "Gaming" } anonymousUser =
      .ok { servers := [sampleServers.get ⟨0, by decide⟩, sampleServers.get ⟨2, by decide⟩,
                        sampleServers.get ⟨4, by decide⟩], num_members := false } := by
  decide
example :
    ServerListViewSet.list sampleServers { by_user := some "true" } authedUser =
      .error .authenticationFailed := by decide
example :
    ServerListViewSet.list sampleServers { by_serverid := some "5" } anonymousUser =
      .error .authenticationFailed := by decide
example :
    ServerListViewSet.list sampleServers { by_serverid := some "" } anonymousUser =
      .error .invalidServerId := by decide
example :
    ServerListViewSet.list sampleServers { qty := some "-1" } anonymousUser =
      .error .negativeIndexAssertion := by decide

/-- Evaluation of `int("")`: the empty string has no digits, so parsing fails. -/
theorem py_int_empty : py_int "" = none := rfl

/-- Claim C1 (counterexample): with `by_serverid` supplied as the empty
string — present, but falsy in Python — and an anonymous identity, the
handler does not raise the authentication error (it reaches the
`by_serverid` branch and fails on `int("")` instead), contradicting the
claim that the gate raises whenever `by_serverid` is present and the
identity is anonymous. -/
theorem C1_counterexample :
    (QueryParams.by_serverid { by_serverid := some "" }).isSome = true ∧
    anonymousUser.is_authenticated = false ∧
    ServerListViewSet.list sampleServers { by_serverid := some "" } anonymousUser ≠
      .error .authenticationFailed := by decide

/-- Claim C1 (amended): the handler raises `AuthenticationRequired` if and
only if `by_user` is true or `by_serverid` is present and non-empty while
the identity is anonymous; moreover, whenever the gate condition holds the
outcome is that error for every collection whatsoever, so the failure
happens before any filtering step can touch the collection. -/
theorem C1_amended_auth_gate (qs : List Server) (p : QueryParams) (user : User) :
    (ServerListViewSet.list qs p user = .error .authenticationFailed ↔
      auth_gate_condition p user = true) ∧
    (auth_gate_condition p user = true →
      ∀ qs' : List Server, ServerListViewSet.list qs' p user = .error .authenticationFailed) := by
  constructor
  · constructor
    · intro h
      by_contra hg
      rw [Bool.not_eq_true] at hg
      rw [list_gate_false qs p user hg] at h
      cases hq : apply_qty p.qty (apply_category p.category qs) with
      | error e =>
          simp only [hq] at h
          cases h
          rcases apply_qty_error_cases p.qty (apply_category p.category qs) _ hq with h1 | h1 <;>
            cases h1
      | ok pr =>
          obtain ⟨mid, sliced⟩ := pr
          simp only [hq] at h
          cases hu : apply_by_user (p.by_user == some "true") user.id mid sliced with
          | error e =>
              simp only [hu] at h
              cases h
              have h1 := apply_by_user_error_cases _ _ _ _ _ hu
              cases h1
          | ok after_user =>
              simp only [hu] at h
              cases hb : apply_by_serverid p.by_serverid
                  (apply_num_members (p.with_num_members == some "True") after_user) sliced with
              | error e =>
                  simp only [hb] at h
                  cases h
                  rcases apply_by_serverid_error_cases _ _ _ _ hb with h1 | h1 | h1 <;> cases h1
              | ok fin =>
                  simp only [hb] at h
                  cases h
    · intro h
      exact list_gate_true qs p user h
  · intro h qs'
    exact list_gate_true qs' p user h

/-- Witness for the amended C1 characterisation at a concrete input. -/
theorem C1_amended_auth_gate_witness :
    ServerListViewSet.list sampleServers { by_user := some "true" } authedUser =
      .error .authenticationFailed :=
  (C1_amended_auth_gate sampleServers { by_user := some "true" } authedUser).1.mpr (by decide)

/-- Claim C2 (code bug): an authenticated requester who combines
`category`, `qty` and `by_user=true` is rejected with the authentication
error, because the gate `by_user or by_serverid and not is_authenticated`
is true whenever `by_user` is true, authenticated or not; the handler's
own docstring says this error is raised only when the requester is not
authenticated, so the three filters are never applied. -/
theorem C2_code_bug_by_user_rejected_when_authenticated :
    authedUser.is_authenticated = true ∧
    ServerListViewSet.list sampleServers
      { category := some "Gaming", qty := some "2", by_user := some "true" } authedUser =
      .error .authenticationFailed := by decide

/-- Claim C3 (counterexample): with `by_serverid=5`, an anonymous identity
and `by_user` absent the gate does raise the authentication error (the
precedence quirk makes `by_serverid and not is_authenticated` decide the
condition), contradicting the claim that such a request passes the gate
and proceeds to resolve `by_serverid`. -/
theorem C3_counterexample :
    ServerListViewSet.list sampleServers { by_serverid := some "5" } anonymousUser =
      .error .authenticationFailed := by decide

/-- Claim C3 (amended): a request with a non-empty `by_serverid`, an
anonymous identity and `by_user` absent raises the authentication error at
the gate and never reaches the `by_serverid` resolution step. -/
theorem C3_amended_nonempty_serverid_requires_auth (qs : List Server) (p : QueryParams)
    (user : User) (sid : String) (hbu : p.by_user = none) (hsid : p.by_serverid = some sid)
    (hne : sid ≠ "") (hanon : user.is_authenticated = false) :
    ServerListViewSet.list qs p user = .error .authenticationFailed := by
  apply list_gate_true
  unfold auth_gate_condition
  rw [hbu, hsid, hanon]
  simp [py_truthy, hne]

/-- Witness for the amended C3 statement at a concrete input. -/
theorem C3_amended_witness :
    ServerListViewSet.list sampleServers { by_serverid := some "7" } anonymousUser =
      .error .authenticationFailed :=
  C3_amended_nonempty_serverid_requires_auth sampleServers { by_serverid := some "7" }
    anonymousUser "7" rfl rfl (by decide) rfl

/-- Claim C10: an empty-string `by_serverid` is present but falsy, so the
gate condition is false even for an anonymous identity; the request then
enters the `by_serverid` branch, where `int("")` raises `ValueError` and
the handler reports the invalid-server-id validation error. -/
theorem C10_empty_serverid_skips_gate_then_invalid (qs : List Server) (user : User)
    (cat wnm : Option String) :
    auth_gate_condition
      { category := cat, by_serverid := some "", with_num_members := wnm } user = false ∧
    ServerListViewSet.list qs
      { category := cat, by_serverid := some "", with_num_members := wnm } user =
      .error .invalidServerId := by
  have hg : auth_gate_condition
      { category := cat, by_serverid := some "", with_num_members := wnm } user = false := by
    simp [auth_gate_condition, py_truthy]
  refine ⟨hg, ?_⟩
  rw [list_gate_false _ _ _ hg]
  simp [apply_qty, apply_by_user, apply_by_serverid, py_int_empty]

/-- Evaluation fact: an absent optional parameter never equals a supplied
string parameter. -/
theorem none_beq_some (s : String) : ((none : Option String) == some s) = false := rfl

/-- Claim C4: with `by_serverid` present, the other parameters absent and
an authenticated requester (so the gate passes), a parse failure yields
the invalid-server-id error, a parsed id matching no record yields the
server-not-found error, and otherwise — with the data model's unique
ids — the collection is narrowed to exactly the single matching record. -/
theorem C4_by_serverid_resolution (qs : List Server) (user : User) (sid : String)
    (hauth : user.is_authenticated = true) :
    (py_int sid = none →
      ServerListViewSet.list qs { by_serverid := some sid } user = .error .invalidServerId) ∧
    (∀ n : Int, py_int sid = some n → qs.filter (fun r => r.id == n) = [] →
      ServerListViewSet.list qs { by_serverid := some sid } user = .error .serverNotFound) ∧
    (∀ n : Int, py_int sid = some n → (qs.map Server.id).Nodup →
      ∀ r ∈ qs, r.id = n →
        ServerListViewSet.list qs { by_serverid := some sid } user =
          .ok { servers := [r], num_members := false }) := by
  have hg : auth_gate_condition { by_serverid := some sid } user = false := by
    simp [auth_gate_condition, py_truthy, none_beq_some, hauth]
  refine ⟨?_, ?_, ?_⟩
  · intro hpn
    rw [list_gate_false _ _ _ hg]
    simp [apply_qty, apply_category, apply_by_user, apply_num_members, apply_by_serverid,
      none_beq_some, hpn]
  · intro n hpn hnil
    rw [list_gate_false _ _ _ hg]
    simp [apply_qty, apply_category, apply_by_user, apply_num_members, apply_by_serverid,
      none_beq_some, hpn, hnil]
  · intro n hpn hnd r hr hid
    have hfilter := filter_id_eq_singleton qs n r hnd hr hid
    rw [list_gate_false _ _ _ hg]
    simp [apply_qty, apply_category, apply_by_user, apply_num_members, apply_by_serverid,
      none_beq_some, hpn, hfilter]

/-- Witness for C4 at a concrete input: looking up id 5 in the sample
collection returns exactly the record with id 5. -/
theorem C4_by_serverid_resolution_witness :
    (sampleServers.map Server.id).Nodup ∧
    ServerListViewSet.list sampleServers { by_serverid := some "5" } authedUser =
      .ok { servers := [{ id := 5, category_name := "Gaming", members := [1] }],
            num_members := false } :=
  ⟨by decide,
    (C4_by_serverid_resolution sampleServers authedUser "5" rfl).2.2 5 (by decide) (by decide)
      { id := 5, category_name := "Gaming", members := [1] } (by decide) rfl⟩

/-- Claim C5 (counterexample): `qty=-1` is a non-positive value that is
not tolerated silently — the queryset slice rejects negative indices and
the request errors out. -/
theorem C5_counterexample :
    py_int "-1" = some (-1) ∧
    ServerListViewSet.list sampleServers { qty := some "-1" } anonymousUser =
      .error .negativeIndexAssertion := by decide

/-- Claim C5 (amended): a parseable `qty` of value `k ≥ 0` truncates the
collection to its first `k` records (so a `qty` larger than the count
returns everything and `qty=0` silently returns nothing), while a negative
`qty` makes the queryset slice raise instead of being tolerated. -/
theorem C5_amended_qty_truncation (qs : List Server) (user : User) (q : String) (k : Int)
    (hq : py_int q = some k) :
    (0 ≤ k →
      ServerListViewSet.list qs { qty := some q } user =
        .ok { servers := qs.take k.toNat, num_members := false }) ∧
    (k < 0 →
      ServerListViewSet.list qs { qty := some q } user = .error .negativeIndexAssertion) := by
  have hg : auth_gate_condition { qty := some q } user = false := by
    simp [auth_gate_condition, py_truthy, none_beq_some]
  constructor
  · intro hk
    rw [list_gate_false _ _ _ hg]
    simp [apply_qty, apply_category, apply_by_user, apply_num_members, apply_by_serverid,
      none_beq_some, hq, not_lt.mpr hk]
  · intro hk
    rw [list_gate_false _ _ _ hg]
    simp [apply_qty, hq, hk]

/-- Witness for C5 (amended): `qty=2` on the 5-record sample returns its
first two records. -/
theorem C5_amended_qty_truncation_witness :
    ServerListViewSet.list sampleServers { qty := some "2" } anonymousUser =
      .ok { servers := sampleServers.take 2, num_members := false } :=
  (C5_amended_qty_truncation sampleServers anonymousUser "2" 2 (by decide)).1 (by decide)

/-- Claim C6: the member-count step triggers exactly when the
`with_num_members` parameter is literally the string "True": in that case
every surviving record gets `num_members` equal to the length of its
member list, otherwise (including for the lowercase "true") the records
pass through untouched; the same string comparison is handed to the
serializer as the context flag. -/
theorem C6_with_num_members_exact_casing (qs : List Server) (user : User)
    (wnm : Option String) :
    ServerListViewSet.list qs { with_num_members := wnm } user =
      .ok { servers :=
              if wnm == some "True" then
                qs.map (fun s => { s with num_members := some s.members.length })
              else qs,
            num_members := wnm == some "True" } ∧
    ((some "true" : Option String) == some "True") = false := by
  have hg : auth_gate_condition { with_num_members := wnm } user = false := by
    simp [auth_gate_condition, py_truthy, none_beq_some]
  refine ⟨?_, rfl⟩
  rw [list_gate_false _ _ _ hg]
  cases hw : (wnm == some "True") <;>
    simp [apply_qty, apply_category, apply_by_user, apply_num_members, apply_by_serverid,
      none_beq_some, hw]

/-- Claim C7: the `category` filter keeps exactly the records whose
category name equals the parameter under case-sensitive string equality,
in their original order (the result is literally `List.filter` of the
collection on that equality). -/
theorem C7_category_exact_match (qs : List Server) (user : User) (c : String) :
    ServerListViewSet.list qs { category := some c } user =
      .ok { servers := qs.filter (fun s => s.category_name == c), num_members := false } ∧
    (∀ s : Server, s ∈ qs.filter (fun s => s.category_name == c) ↔
      s ∈ qs ∧ s.category_name = c) := by
  have hg : auth_gate_condition { category := some c } user = false := by
    simp [auth_gate_condition, py_truthy, none_beq_some]
  constructor
  · rw [list_gate_false _ _ _ hg]
    simp [apply_qty, apply_category, apply_by_user, apply_num_members, apply_by_serverid,
      none_beq_some]
  · intro s
    simp [List.mem_filter]

/-- Claim C8 (counterexample): combining `by_serverid` with `by_user` for
an authenticated member of the target server never resolves the id — the
gate rejects every `by_user=true` request — although the narrowed
collection would contain the requested server, so the claim's universal
statement over combinations including `by_user` fails. -/
theorem C8_counterexample :
    ((sampleServers.filter (fun s => s.members.contains authedUser.id)).filter
        (fun r => r.id == (5 : Int))) ≠ [] ∧
    ServerListViewSet.list sampleServers
      { by_user := some "true", by_serverid := some "5" } authedUser =
      .error .authenticationFailed := by decide

/-- Claim C8 (amended): when `by_serverid` is combined with `category`
(authenticated requester, `by_user` and `qty` absent), the id is looked up
in the category-narrowed collection, not the base one: the
server-not-found error is produced exactly when the id is missing from
the narrowed collection, even if a matching record exists in the base
collection, and otherwise the matches inside the narrowed collection are
returned.  Combining `by_serverid` with a well-formed `qty` never reaches
a result or the not-found error: the slice marks the queryset and the
later `.filter(id=...)` crashes with the uncaught no-filter-after-slice
`TypeError`; combinations with `by_user=true` are rejected at the gate. -/
theorem C8_amended_serverid_on_narrowed (qs : List Server) (user : User)
    (cat : Option String) (sid : String) (n : Int)
    (hauth : user.is_authenticated = true)
    (hs : py_int sid = some n) :
    ((apply_category cat qs).filter (fun r => r.id == n) = [] →
      ServerListViewSet.list qs { category := cat, by_serverid := some sid } user =
        .error .serverNotFound) ∧
    ((apply_category cat qs).filter (fun r => r.id == n) ≠ [] →
      ServerListViewSet.list qs { category := cat, by_serverid := some sid } user =
        .ok { servers := (apply_category cat qs).filter (fun r => r.id == n),
              num_members := false }) ∧
    (∀ q : String, ∀ k : Int, py_int q = some k → 0 ≤ k →
      ServerListViewSet.list qs
        { category := cat, qty := some q, by_serverid := some sid } user =
        .error .filterAfterSliceTypeError) ∧
    (∀ qty bu : Option String, bu = some "true" →
      ServerListViewSet.list qs
        { category := cat, qty := qty, by_user := bu, by_serverid := some sid } user =
        .error .authenticationFailed) := by
  have hg1 : auth_gate_condition { category := cat, by_serverid := some sid } user = false := by
    simp [auth_gate_condition, py_truthy, none_beq_some, hauth]
  refine ⟨?_, ?_, ?_, ?_⟩
  · intro hnil
    rw [list_gate_false _ _ _ hg1]
    simp [apply_qty, apply_by_user, apply_num_members, apply_by_serverid, none_beq_some,
      hs, hnil]
  · intro hne
    rw [list_gate_false _ _ _ hg1]
    simp [apply_qty, apply_by_user, apply_num_members, apply_by_serverid, none_beq_some,
      hs, hne]
  · intro q k hq hk
    have hg2 : auth_gate_condition
        { category := cat, qty := some q, by_serverid := some sid } user = false := by
      simp [auth_gate_condition, py_truthy, none_beq_some, hauth]
    rw [list_gate_false _ _ _ hg2]
    simp [apply_qty, apply_by_user, apply_num_members, apply_by_serverid, none_beq_some,
      hq, not_lt.mpr hk, hs]
  · intro qty bu hbu
    apply list_gate_true
    simp [auth_gate_condition, hbu]

/-- Witness for C8 (amended): `category=Music` excludes server 5, so
looking it up afterwards reports server-not-found even though a record
with id 5 exists in the base collection. -/
theorem C8_amended_serverid_on_narrowed_witness :
    (sampleServers.filter (fun r => r.id == (5 : Int))) ≠ [] ∧
    ServerListViewSet.list sampleServers
      { category := some "Music", by_serverid := some "5" } authedUser =
      .error .serverNotFound :=
  ⟨by decide,
    (C8_amended_serverid_on_narrowed sampleServers authedUser (some "Music") "5" 5 rfl
      (by decide)).1 (by decide)⟩

/-- Claim C9: when the auth gate passes and `qty` is present but not
parseable as an integer, the handler fails with the uncaught `ValueError`
from `int(qty)`, which is none of the three documented error kinds. -/
theorem C9_nonnumeric_qty_value_error (qs : List Server) (p : QueryParams) (user : User)
    (q : String) (hgate : auth_gate_condition p user = false)
    (hq : p.qty = some q) (hpq : py_int q = none) :
    ServerListViewSet.list qs p user = .error .qtyValueError ∧
    ListError.qtyValueError ≠ ListError.authenticationFailed ∧
    ListError.qtyValueError ≠ ListError.invalidServerId ∧
    ListError.qtyValueError ≠ ListError.serverNotFound := by
  refine ⟨?_, by decide, by decide, by decide⟩
  rw [list_gate_false _ _ _ hgate]
  simp [apply_qty, hq, hpq]

/-- Witness for C9 at the concrete parameter `qty="abc"`. -/
theorem C9_nonnumeric_qty_value_error_witness :
    ServerListViewSet.list sampleServers { qty := some "abc" } anonymousUser =
      .error .qtyValueError :=
  (C9_nonnumeric_qty_value_error sampleServers { qty := some "abc" } anonymousUser "abc"
    (by decide) rfl (by decide)).1
